import Mathlib

/-!
Verification development for the jahresabschluss-system import/matching core.

Strings from the Python sources are modelled as `List Char`; Python `Decimal`
values are modelled as a mantissa/scale pair (`PyDec`, mirroring Decimal's
coefficient-and-exponent representation) with exact rational value `PyDec.toQ`;
Python `float` score arithmetic in the matching engine is modelled as exact
rational arithmetic (`ℚ`).  Python `str.lower` is Unicode-aware; it is
modelled by `Char.toLower`, which agrees with it on the ASCII range (the range
all separator, suffix and marker constants of the code live in).
-/

namespace JA

/-- Python `str.strip()` with no argument: remove leading and trailing
whitespace. -/
def pyStrip (s : List Char) : List Char :=
  (s.dropWhile Char.isWhitespace).reverse.dropWhile Char.isWhitespace |>.reverse

/-- Python `str.lower()`, restricted to the ASCII range. -/
def pyLower (s : List Char) : List Char :=
  s.map Char.toLower

/-- Worker for `replaceAll`, structurally recursive on a fuel argument that is
always instantiated with the input length (each step consumes at least one
character, so that fuel is exact, not an approximation). -/
def replaceAllFuel (pat repl : List Char) : Nat → List Char → List Char
  | 0, s => s
  | _ + 1, [] => []
  | fuel + 1, c :: rest =>
    if pat ≠ [] ∧ pat.isPrefixOf (c :: rest) then
      repl ++ replaceAllFuel pat repl fuel ((c :: rest).drop pat.length)
    else
      c :: replaceAllFuel pat repl fuel rest

/-- Python `str.replace(old, new)`: left-to-right, non-overlapping replacement
of every occurrence of `pat` (non-empty in every use below) by `repl`. -/
def replaceAll (pat repl s : List Char) : List Char :=
  replaceAllFuel pat repl s.length s

/-- Python `sub in s` (substring containment test). -/
def strContains (s sub : List Char) : Bool :=
  (List.range (s.length + 1)).any (fun i => sub.isPrefixOf (s.drop i))

/-- Python `s.endswith(suffix)`. -/
def strEndsWith (s suffix : List Char) : Bool :=
  decide (suffix.length ≤ s.length) && decide (s.drop (s.length - suffix.length) = suffix)

/-- Python `s.startswith(prefix)`. -/
def strStartsWith (s pre : List Char) : Bool :=
  pre.isPrefixOf s

/-- Parse a run of ASCII digits as a natural number; `none` if empty or a
non-digit occurs. -/
def digitsToNat (s : List Char) : Option Nat :=
  if s = [] then none
  else if s.all Char.isDigit then
    some (s.foldl (fun acc c => acc * 10 + (c.toNat - 48)) 0)
  else none

/-- Python `int(s)` on an already-stripped string: optional sign then digits;
`none` models the `ValueError` exception. -/
def pyParseInt (s : List Char) : Option Int :=
  match s with
  | '-' :: rest => (digitsToNat rest).map (fun n => -(n : Int))
  | '+' :: rest => (digitsToNat rest).map (fun n => (n : Int))
  | _ => (digitsToNat s).map (fun n => (n : Int))

/-- A Python `Decimal` value: signed coefficient `mant` scaled by `10 ^ scale`.
The represented value is `mant / 10 ^ scale`; all Decimal operations the
importers perform (negation, subtraction, division by 100 of an integer) are
exact at this precision, so the context rounding of `decimal` never fires on
these code paths. -/
structure PyDec where
  mant : Int
  scale : Nat
deriving DecidableEq, Repr

/-- Exact rational value of a `PyDec`. -/
def PyDec.toQ (d : PyDec) : ℚ :=
  (d.mant : ℚ) / 10 ^ d.scale

/-- `Decimal` zero as produced by `Decimal('0')`. -/
def PyDec.zero : PyDec := ⟨0, 0⟩

/-- Python `-d` on a Decimal. -/
def PyDec.neg (d : PyDec) : PyDec := ⟨-d.mant, d.scale⟩

/-- Python `a - b` on Decimals (exact; scales are aligned by
cross-multiplication, which preserves the value). -/
def PyDec.sub (a b : PyDec) : PyDec :=
  ⟨a.mant * 10 ^ b.scale - b.mant * 10 ^ a.scale, a.scale + b.scale⟩

/-- Python `d == 0` on a Decimal (value comparison). -/
def PyDec.isZero (d : PyDec) : Bool := d.mant = 0

/-- Python `d > 0` on a Decimal (value comparison). -/
def PyDec.isPos (d : PyDec) : Bool := d.mant > 0

/-- Python `Decimal(s)` on an already-stripped string, for the plain forms the
importers produce: optional sign, digits, optional `.` and fraction digits
(exponent forms are never produced by these code paths and are not modelled).
`none` models the `InvalidOperation` exception. -/
def pyParseDecimal (s : List Char) : Option PyDec :=
  let core : List Char → Option PyDec := fun t =>
    match t.splitOn '.' with
    | [intPart] =>
      (digitsToNat intPart).map (fun n => ⟨(n : Int), 0⟩)
    | [intPart, fracPart] =>
      if intPart = [] ∧ fracPart = [] then none
      else if intPart.all Char.isDigit ∧ fracPart.all Char.isDigit then
        some ⟨((intPart ++ fracPart).foldl (fun acc c => acc * 10 + (c.toNat - 48)) 0 : Nat),
              fracPart.length⟩
      else none
    | _ => none
  match s with
  | '-' :: rest => (core rest).map PyDec.neg
  | '+' :: rest => core rest
  | _ => core s

/-! ## Locale decimal parsers

Each importer file carries its own decimal-parsing helper; they are embedded
one definition per source function. -/

/-- `BankCSVImporter._parse_german_decimal` (bank_csv.py): strip, take a
leading minus, remove every dot, turn every comma into a dot, then `Decimal`;
any parse failure yields `Decimal('0')`. -/
def bankParseGermanDecimal (s : List Char) : PyDec :=
  if pyStrip s = [] then PyDec.zero
  else
    let t := pyStrip s
    let neg := strStartsWith t ['-']
    let t := if neg then t.drop 1 else t
    let t := replaceAll ['.'] [] t
    let t := replaceAll [','] ['.'] t
    match pyParseDecimal t with
    | some v => if neg then v.neg else v
    | none => PyDec.zero

/-- `DATEVImporter._parse_german_decimal` (datev.py): same algorithm as the
bank-CSV helper (strip, minus, drop dots, comma becomes dot). -/
def datevParseGermanDecimal (s : List Char) : PyDec :=
  if pyStrip s = [] then PyDec.zero
  else
    let t := pyStrip s
    let neg := strStartsWith t ['-']
    let t := if neg then t.drop 1 else t
    let t := replaceAll ['.'] [] t
    let t := replaceAll [','] ['.'] t
    match pyParseDecimal t with
    | some v => if neg then v.neg else v
    | none => PyDec.zero

/-- `PayPalImporter._parse_german_decimal` (paypal.py): additionally removes
the euro sign and the letters `EUR` before the shared algorithm. -/
def paypalParseGermanDecimal (s : List Char) : PyDec :=
  if pyStrip s = [] then PyDec.zero
  else
    let t := pyStrip s
    let t := pyStrip (replaceAll ("EUR".data) [] (replaceAll ("€".data) [] t))
    let neg := strStartsWith t ['-']
    let t := if neg then t.drop 1 else t
    let t := replaceAll ['.'] [] t
    let t := replaceAll [','] ['.'] t
    match pyParseDecimal t with
    | some v => if neg then v.neg else v
    | none => PyDec.zero

/-- Python `s.rfind(c)`: highest index of `c`, or `none` for `-1`. -/
def rfindChar (s : List Char) (c : Char) : Option Nat :=
  (List.range s.length).foldl
    (fun acc i => if s.getD i ' ' = c then some i else acc) none

/-- Separator normalization inside `StripeImporter._parse_stripe_amount`
(stripe.py): only a comma present means German format; with both present the
rightmost separator is the decimal point. -/
def stripeNormalizeSeparators (t : List Char) : List Char :=
  if strContains t [','] ∧ ¬ strContains t ['.'] then
    replaceAll [','] ['.'] t
  else if strContains t [','] ∧ strContains t ['.'] then
    match rfindChar t ',', rfindChar t '.' with
    | some cp, some dp =>
      if cp > dp then replaceAll [','] ['.'] (replaceAll ['.'] [] t)
      else replaceAll [','] [] t
    | _, _ => t
  else t

/-- `StripeImporter._parse_stripe_amount` (stripe.py): normalize separators; a
string with a decimal point is parsed as-is; an integer value greater than 999
is treated as minor units and divided by 100; exceptions yield `Decimal('0')`. -/
def parseStripeAmount (s : List Char) : PyDec :=
  if pyStrip s = [] then PyDec.zero
  else
    let t := stripeNormalizeSeparators (pyStrip s)
    if strContains t ['.'] then
      (pyParseDecimal t).getD PyDec.zero
    else
      match pyParseInt t with
      | some v => if v > 999 then ⟨v, 2⟩ else ⟨v, 0⟩
      | none => PyDec.zero

/-- Separator normalization inside `MollieImporter._parse_amount`
(mollie.py, lines 185-198): the same rightmost-separator rule as the Stripe
parser (only a comma means German format; with both separators present the
rightmost one is the decimal point). -/
def mollieNormalizeSeparators (t : List Char) : List Char :=
  if strContains t [','] ∧ ¬ strContains t ['.'] then
    replaceAll [','] ['.'] t
  else if strContains t [','] ∧ strContains t ['.'] then
    match rfindChar t ',', rfindChar t '.' with
    | some cp, some dp =>
      if cp > dp then replaceAll [','] ['.'] (replaceAll ['.'] [] t)
      else replaceAll [','] [] t
    | _, _ => t
  else t

/-- `MollieImporter._parse_amount` (mollie.py): strip, remove the (mojibake)
euro sign `â‚¬` and the letters `EUR`, normalize separators with the
rightmost-separator rule, read a leading `-`/`(` or trailing `-` as the sign,
delete all `-`/`(`/`)` characters, then `Decimal`; exceptions yield
`Decimal('0')`.  Unlike the Stripe parser there is no minor-unit heuristic. -/
def mollieParseAmount (s : List Char) : PyDec :=
  if pyStrip s = [] then PyDec.zero
  else
    let t := pyStrip s
    let t := pyStrip (replaceAll ("EUR".data) [] (replaceAll ("â‚¬".data) [] t))
    let t := mollieNormalizeSeparators t
    let neg := strStartsWith t ['-'] || strStartsWith t ['('] || strEndsWith t ['-']
    let t := pyStrip (replaceAll [')'] [] (replaceAll ['('] [] (replaceAll ['-'] [] t)))
    match pyParseDecimal t with
    | some v => if neg then v.neg else v
    | none => PyDec.zero

end JA

namespace JA

/-! ## Dates

`datetime.date` values are modelled as validated year/month/day triples;
`datetime.strptime` patterns are embedded one parser per pattern, matching the
whole string as `strptime` does (1-2 digit day/month fields, 1-4 digit `%Y`,
two-digit `%y` with the 1969/2068 pivot). -/

structure PyDate where
  year : Int
  month : Nat
  day : Nat
deriving DecidableEq, Repr

def isLeapYear (y : Int) : Bool :=
  (y % 4 = 0 ∧ y % 100 ≠ 0) ∨ y % 400 = 0

def daysInMonth (y : Int) (m : Nat) : Nat :=
  if m = 2 then (if isLeapYear y then 29 else 28)
  else if m = 4 ∨ m = 6 ∨ m = 9 ∨ m = 11 then 30
  else 31

/-- `datetime.date(y, m, d)`: `none` models the `ValueError` raised on an
out-of-range component (`datetime.MINYEAR = 1`, `MAXYEAR = 9999`). -/
def mkPyDate (y : Int) (m d : Nat) : Option PyDate :=
  if 1 ≤ y ∧ y ≤ 9999 ∧ 1 ≤ m ∧ m ≤ 12 ∧ 1 ≤ d ∧ d ≤ daysInMonth y m then
    some ⟨y, m, d⟩
  else none

/-- A 1-to-`hi`-digit numeric `strptime` field. -/
def numField (s : List Char) (hi : Nat) : Option Nat :=
  if 1 ≤ s.length ∧ s.length ≤ hi then digitsToNat s else none

/-- `strptime` with pattern `%d<sep>%m<sep>%Y`. -/
def parseDMY4 (sep : Char) (s : List Char) : Option PyDate :=
  match s.splitOn sep with
  | [d, m, y] =>
    match numField d 2, numField m 2, numField y 4 with
    | some dd, some mm, some yy => mkPyDate (yy : Int) mm dd
    | _, _, _ => none
  | _ => none

/-- `strptime` with pattern `%d<sep>%m<sep>%y` (two-digit year, 69 pivot). -/
def parseDMY2 (sep : Char) (s : List Char) : Option PyDate :=
  match s.splitOn sep with
  | [d, m, y] =>
    match numField d 2, numField m 2, numField y 2 with
    | some dd, some mm, some yy =>
      mkPyDate (if yy ≤ 68 then 2000 + (yy : Int) else 1900 + (yy : Int)) mm dd
    | _, _, _ => none
  | _ => none

/-- `strptime` with pattern `%Y<sep>%m<sep>%d`. -/
def parseYMD (sep : Char) (s : List Char) : Option PyDate :=
  match s.splitOn sep with
  | [y, m, d] =>
    match numField y 4, numField m 2, numField d 2 with
    | some yy, some mm, some dd => mkPyDate (yy : Int) mm dd
    | _, _, _ => none
  | _ => none

/-- First parser in the candidate list that succeeds, as the sources' cascade
of `try: return strptime(...)` blocks. -/
def firstSome (ps : List (List Char → Option PyDate)) (s : List Char) : Option PyDate :=
  match ps with
  | [] => none
  | p :: rest =>
    match p s with
    | some d => some d
    | none => firstSome rest s

/-- `BankCSVImporter._parse_german_date` (bank_csv.py): strip; blank gives
`None`; then `%d.%m.%Y`, `%d.%m.%y`, `%Y-%m-%d`, `%d-%m-%Y` in that order. -/
def bankParseGermanDate (s : List Char) : Option PyDate :=
  if pyStrip s = [] then none
  else firstSome [parseDMY4 '.', parseDMY2 '.', parseYMD '-', parseDMY4 '-'] (pyStrip s)

/-- `DATEVImporter._parse_german_date` (datev.py): like the bank-CSV cascade
with `%d/%m/%Y` appended. -/
def datevParseGermanDate (s : List Char) : Option PyDate :=
  if pyStrip s = [] then none
  else firstSome [parseDMY4 '.', parseDMY2 '.', parseYMD '-', parseDMY4 '-', parseDMY4 '/']
    (pyStrip s)

/-- `DATEVImporter._parse_datev_date` (datev.py): a 4-character `DDMM` string
takes its year from `datetime.now().year`, passed here as `nowYear`; an
8-character `DDMMYYYY` string carries its own year.  A non-digit substring
raises `ValueError` in the code (aborting the whole classic import, there
being no per-row handler); no claim depends on that propagation and it is
modelled as `none`. -/
def datevParseDate (nowYear : Int) (s : List Char) : Option PyDate :=
  if s = [] then none
  else if s.length = 4 then
    match digitsToNat (s.take 2), digitsToNat (s.drop 2) with
    | some d, some m => mkPyDate nowYear m d
    | _, _ => none
  else if s.length = 8 then
    match digitsToNat (s.take 2), digitsToNat ((s.drop 2).take 2), digitsToNat (s.drop 4) with
    | some d, some m, some y => mkPyDate (y : Int) m d
    | _, _, _ => none
  else none

/-! ## Bank CSV row parsing (bank_csv.py)

Rows are the decoded, `;`-split records handed over by `csv.reader`; the
encoding-candidate loop around them is not semantic and is not modelled.  The
SEPA-tag extraction (`EREF:`/`MREF:`/`IBAN:`/`BIC:`/`CRED:`), which only fills
auxiliary audit fields that no claim reads, is elided from the record. -/

structure BankRow where
  reference : List Char
  bookingDate : Option PyDate
  amount : PyDec
  valueDate : Option PyDate
  partnerName : List Char
  purpose : List Char
  accountNumber : List Char
deriving DecidableEq, Repr

/-- `BankCSVImporter._parse_transaction_row`: zero amounts are dropped
(`None`), everything else is mapped onto the canonical dictionary. -/
def bankParseTransactionRow (row : List (List Char)) : Option BankRow :=
  let amount := bankParseGermanDecimal (row.getD 2 [])
  if amount.isZero then none
  else some {
    reference := pyStrip (row.getD 0 []),
    bookingDate := bankParseGermanDate (row.getD 1 []),
    amount := amount,
    valueDate := bankParseGermanDate (row.getD 3 []),
    partnerName := pyStrip (row.getD 5 []),
    purpose := pyStrip (row.getD 6 []),
    accountNumber := if row.length > 7 then pyStrip (row.getD 7 []) else [] }

/-- The loop body of `BankCSVImporter._parse_bank_csv` for one row: empty or
short rows and rows with a blank field among the first three are skipped
(`not row` is subsumed by `len(row) < 8`), and a row on which
`_parse_transaction_row` fails or returns `None` is skipped. -/
def bankRowOutcome (row : List (List Char)) : Option BankRow :=
  if row.length < 8 then none
  else if row.getD 0 [] = [] ∨ row.getD 1 [] = [] ∨ row.getD 2 [] = [] then none
  else bankParseTransactionRow row

/-- The row loop of `BankCSVImporter._parse_bank_csv`: each row is handled
independently, failures `continue`, survivors are appended in order. -/
def bankParseCsv : List (List (List Char)) → List BankRow
  | [] => []
  | row :: rest =>
    if row.length < 8 then bankParseCsv rest
    else if row.getD 0 [] = [] ∨ row.getD 1 [] = [] ∨ row.getD 2 [] = [] then bankParseCsv rest
    else
      match bankParseTransactionRow row with
      | some t => t :: bankParseCsv rest
      | none => bankParseCsv rest

/-- `BankCSVImporter.import_file`, reduced to its parse/guard structure: an
empty survivor list raises `Exception("No transactions found in CSV file")`. -/
def bankImportFile (rows : List (List (List Char))) : Except (List Char) (List BankRow) :=
  let transactions := bankParseCsv rows
  if transactions = [] then Except.error ("No transactions found in CSV file".data)
  else Except.ok transactions

/-- A transaction record as written by a `_save_to_database` loop body; the
fields not set by a given importer keep their model defaults. -/
structure SavedTxn where
  sourceType : List Char
  bookingDate : Option PyDate
  amount : PyDec
  description : List Char
  accountNumber : List Char
  contraAccount : List Char := []
  accountName : List Char := []
deriving DecidableEq, Repr

/-- The per-transaction body of `BankCSVImporter._save_to_database`:
description capped at 500 characters, partner name at 100; the account number
is passed through without any cap. -/
def bankSaveRow (t : BankRow) : SavedTxn :=
  { sourceType := "BANK_CSV".data,
    bookingDate := t.bookingDate,
    amount := t.amount,
    description := t.purpose.take 500,
    accountNumber := t.accountNumber,
    accountName := t.partnerName.take 100 }

/-! ## DATEV parsing (datev.py) -/

/-- One classic-format transaction (`_parse_datev_classic`); the `tax_key`
and `raw_data` fields, which no claim reads, are elided. -/
structure DatevClassicTxn where
  amount : PyDec
  debitCredit : List Char
  account : List Char
  contraAccount : List Char
  bookingDate : Option PyDate
  documentRef : List Char
  description : List Char
deriving DecidableEq, Repr

/-- `DATEVImporter._parse_datev_classic`, after the two skipped metadata
header rows: every row with at least 10 columns is appended — there is no
zero-amount filter in this sub-format. -/
def datevParseClassic (nowYear : Int) (rows : List (List (List Char))) : List DatevClassicTxn :=
  rows.filterMap (fun row =>
    if row.length < 10 then none
    else some {
      amount := datevParseGermanDecimal (row.getD 0 []),
      debitCredit := row.getD 1 [],
      account := row.getD 2 [],
      contraAccount := row.getD 3 [],
      bookingDate := datevParseDate nowYear (row.getD 4 []),
      documentRef := if row.length > 5 then row.getD 5 [] else [],
      description := if row.length > 7 then row.getD 7 [] else [] })

/-- Python `dict.get(key, default)` over a `csv.DictReader` row. -/
def pyGet (row : List (List Char × List Char)) (key dflt : List Char) : List Char :=
  match row.find? (fun kv => kv.1 = key) with
  | some kv => kv.2
  | none => dflt

/-- Python `s.strip(c)` for a single strip character. -/
def pyStripChar (c : Char) (s : List Char) : List Char :=
  (s.dropWhile (· = c)).reverse.dropWhile (· = c) |>.reverse

/-- The field-name cleaning of `_parse_datev_document_export`:
`field.strip().strip('"').strip()`, applied to every key. -/
def cleanFieldName (k : List Char) : List Char :=
  pyStrip (pyStripChar '"' (pyStrip k))

def cleanRow (row : List (List Char × List Char)) : List (List Char × List Char) :=
  row.map (fun kv => (cleanFieldName kv.1, kv.2))

/-- One document-export transaction (`DATEVImporter._parse_transaction_row`);
the audit-only fields (`tax_rate`, `vat_id`, `iban`, `document_id`,
`document_path`, `paid`, `paid_date`, `raw_data`, currency, account fields)
are elided — no claim reads them. -/
structure DatevDocTxn where
  documentType : List Char
  partnerName : List Char
  amount : PyDec
  invoiceNumber : List Char
  bookingDate : Option PyDate
  description : List Char
deriving DecidableEq, Repr

/-- The amount computation of `DATEVImporter._parse_transaction_row`
(document-export format): `Rechnungsbetrag` stripped, parsed when non-blank,
else `Decimal('0')`. -/
def datevDocAmount (row : List (List Char × List Char)) : PyDec :=
  if pyStrip (pyGet row ("Rechnungsbetrag".data) ("0".data)) ≠ [] then
    datevParseGermanDecimal (pyStrip (pyGet row ("Rechnungsbetrag".data) ("0".data)))
  else PyDec.zero

/-- `DATEVImporter._parse_transaction_row` (document-export format): blank
`Belegart` and zero amounts give `None`; document types `G`/`E` (credit
note/income) force the amount negative. -/
def datevDocParseRow (row : List (List Char × List Char)) : Option DatevDocTxn :=
  if pyStrip (pyGet row ("Belegart".data) []) = [] then none
  else
    let amount := datevDocAmount row
    if amount.isZero then none
    else
      let belegart := pyStrip (pyGet row ("Belegart".data) [])
      let isIncome := belegart = "G".data ∨ belegart = "E".data
      let amount := if isIncome ∧ amount.isPos then amount.neg else amount
      let dateStr :=
        if pyGet row ("Rechnungsdatum".data) [] ≠ [] then pyGet row ("Rechnungsdatum".data) []
        else pyGet row ("Eingangsdatum".data) []
      some {
        documentType := belegart,
        partnerName := pyStrip (pyGet row ("Geschäftspartner-Name".data) []),
        amount := amount,
        invoiceNumber := pyStrip (pyGet row ("Rechnungs-Nr.".data) []),
        bookingDate := if dateStr ≠ [] then datevParseGermanDate dateStr else none,
        description := pyStrip (
          if pyGet row ("Ware/Leistung".data) [] ≠ [] then pyGet row ("Ware/Leistung".data) []
          else pyGet row ("Buchungstext".data) []) }

/-- The row loop of `DATEVImporter._parse_datev_document_export`: keys are
cleaned, rows with a blank `Belegart` are skipped, per-row failures skip only
that row. -/
def datevParseDocExport (rows : List (List (List Char × List Char))) : List DatevDocTxn :=
  (rows.map cleanRow).filterMap (fun r =>
    if pyStrip (pyGet r ("Belegart".data) []) = [] then none
    else datevDocParseRow r)

end JA

namespace JA

/-! ## Stripe row parsing and persistence (stripe.py) -/

/-- One parsed Stripe transaction (`StripeImporter._parse_transaction_row`);
the audit-only fields (`refunded_date`, `currency`, `captured`, customer/card/
invoice ids, `decline_reason`, `is_refund`, `raw_data`), which no claim reads,
are elided. -/
structure StripeTxn where
  stripeId : List Char
  bookingDate : Option PyDate
  amount : PyDec
  amountRefunded : PyDec
  fee : PyDec
  netAmount : PyDec
  status : List Char
  description : List Char
  customerEmail : List Char
  statementDescriptor : List Char
  metadataPairs : List (List Char × List Char)
  isSuccessful : Bool
deriving DecidableEq, Repr

/-- `StripeImporter._parse_stripe_date` (stripe.py): the five candidate
patterns in source order, reduced to the returned `.date()` component; the
time-of-day fields are validated (hour < 24, minute < 60, second ≤ 61 as
`strptime` allows) but dropped. -/
def parseTimeHMS (withFraction : Bool) (t : List Char) : Bool :=
  match t.splitOn ':' with
  | [h, m, s] =>
    let secOk : Bool :=
      if withFraction then
        match s.splitOn '.' with
        | [sec, frac] =>
          match numField sec 2, digitsToNat frac with
          | some ss, some _ => decide (ss ≤ 61 ∧ 1 ≤ frac.length ∧ frac.length ≤ 6)
          | _, _ => false
        | _ => false
      else
        match numField s 2 with
        | some ss => decide (ss ≤ 61)
        | none => false
    match numField h 2, numField m 2 with
    | some hh, some mm => decide (hh ≤ 23) && decide (mm ≤ 59) && secOk
    | _, _ => false
  | _ => false

def parseDateTimeSep (sep : Char) (withFraction trailingZ : Bool) (s : List Char) : Option PyDate :=
  match s.splitOn sep with
  | [d, t] =>
    let t := if trailingZ then (if t.reverse.take 1 = ['Z'] then t.dropLast else []) else t
    if parseTimeHMS withFraction t then parseYMD '-' d else none
  | _ => none

def parseStripeDate (s : List Char) : Option PyDate :=
  if pyStrip s = [] then none
  else
    firstSome
      [parseDateTimeSep ' ' False False,
       parseDateTimeSep ' ' True False,
       parseDateTimeSep 'T' False True,
       parseDateTimeSep 'T' False False,
       parseYMD '-']
      (pyStrip s)

/-- The metadata-column extraction of `_parse_transaction_row`: columns whose
name contains `(metadata)` and whose value is non-empty, keyed by the name
with ` (metadata)` removed. -/
def stripeMetadataFields (row : List (List Char × List Char)) : List (List Char × List Char) :=
  (row.filter (fun kv => strContains kv.1 ("(metadata)".data) ∧ kv.2 ≠ [])).map
    (fun kv => (replaceAll (" (metadata)".data) [] kv.1, kv.2))

/-- `StripeImporter._parse_transaction_row`: a row with zero amount **and** a
blank `Status` is dropped; any other row is kept (including zero-amount rows
that carry a status). -/
def stripeParseRow (row : List (List Char × List Char)) : Option StripeTxn :=
  let amount := parseStripeAmount (pyGet row ("Amount".data) ("0".data))
  let amountRefunded := parseStripeAmount (pyGet row ("Amount Refunded".data) ("0".data))
  let fee := parseStripeAmount (pyGet row ("Fee".data) ("0".data))
  let status := pyStrip (pyGet row ("Status".data) [])
  if amount.isZero ∧ status = [] then none
  else
    some {
      stripeId := pyStrip (pyGet row ("id".data) []),
      bookingDate := parseStripeDate (pyGet row ("Created date (UTC)".data) []),
      amount := amount,
      amountRefunded := amountRefunded,
      fee := fee,
      netAmount := (amount.sub fee).sub amountRefunded,
      status := status,
      description := pyStrip (pyGet row ("Description".data) []),
      customerEmail := pyStrip (pyGet row ("Customer Email".data) []),
      statementDescriptor := pyStrip (pyGet row ("Statement Descriptor".data) []),
      metadataPairs := stripeMetadataFields row,
      isSuccessful := pyLower status = "succeeded".data ∨ pyLower status = "paid".data }

/-- `StripeImporter._build_description`: the non-empty parts joined by
`" | "`, capped at 500 characters. -/
def stripeBuildDescription (t : StripeTxn) : List Char :=
  let products :=
    ((t.metadataPairs.filter (fun kv => strStartsWith kv.1 ("product_".data) ∧ kv.2 ≠ [])).map
      (fun kv => kv.2)).take 3
  let parts :=
    (if t.description ≠ [] then [t.description] else [])
    ++ (if t.statementDescriptor ≠ [] then [("Statement: ".data) ++ t.statementDescriptor] else [])
    ++ (if t.customerEmail ≠ [] then [("Customer: ".data) ++ t.customerEmail] else [])
    ++ (if t.stripeId ≠ [] then [("Stripe ID: ".data) ++ t.stripeId] else [])
    ++ (if products ≠ [] then [("Products: ".data) ++ List.intercalate (", ".data) products] else [])
  (List.intercalate (" | ".data) parts).take 500

/-- The per-transaction body of `StripeImporter._save_to_database`: failed
rows (not `succeeded`/`paid`) are kept for audit with amount forced to zero
and a `[FAILED] ` marker prefixed to the description. -/
def stripeSaveRow (t : StripeTxn) : SavedTxn :=
  let amount := if t.isSuccessful then t.netAmount else PyDec.zero
  let description :=
    if t.isSuccessful then stripeBuildDescription t
    else ("[FAILED] ".data) ++ stripeBuildDescription t
  { sourceType := "STRIPE".data,
    bookingDate := t.bookingDate,
    amount := amount,
    description := description,
    accountNumber := "STRIPE".data,
    accountName := t.customerEmail }

/-! ## Importer factory (factory.py and the `can_handle` predicates) -/

/-- The pattern `.*\d{6,}_\d{6}_\d{6}\.csv` used by `re.match` in
`BankCSVImporter.can_handle`: `re.match` succeeds iff some prefix of the
string decomposes as anything, then ≥6 digits, `_`, 6 digits, `_`, 6 digits,
`.csv`; matchability is exactly the existence of such a decomposition. -/
def bankCsvFilePattern (l : List Char) : Bool :=
  (List.range (l.length + 1)).any (fun i =>
    (List.range (l.length + 1)).any (fun k =>
      6 ≤ k ∧ ((l.drop i).take k).length = k ∧ ((l.drop i).take k).all Char.isDigit ∧
      (let r := l.drop (i + k)
       r.take 1 = ['_'] ∧ ((r.drop 1).take 6).length = 6 ∧ ((r.drop 1).take 6).all Char.isDigit ∧
       (let r2 := r.drop 7
        r2.take 1 = ['_'] ∧ ((r2.drop 1).take 6).length = 6 ∧ ((r2.drop 1).take 6).all Char.isDigit ∧
        strStartsWith (r2.drop 7) (".csv".data)))))

/-- `BankCSVImporter.can_handle`: `konto` anywhere in the lowercased name, or
the digit-pattern match. -/
def bankCsvCanHandle (filename : List Char) : Bool :=
  strContains (pyLower filename) ("konto".data) || bankCsvFilePattern (pyLower filename)

/-- `PayPalImporter.can_handle`. -/
def paypalCanHandle (filename : List Char) : Bool :=
  strEndsWith (pyLower filename) (".csv".data) &&
    (strContains (pyLower filename) ("paypal".data) || pyLower filename = "download.csv".data)

/-- `StripeImporter.can_handle`. -/
def stripeCanHandle (filename : List Char) : Bool :=
  strEndsWith (pyLower filename) (".csv".data) &&
    (strContains (pyLower filename) ("stripe".data) ||
     strContains (pyLower filename) ("unified_payments".data) ||
     strContains (pyLower filename) ("unified-payments".data) ||
     strContains (pyLower filename) ("payments".data))

/-- `MollieImporter.can_handle`. -/
def mollieCanHandle (filename : List Char) : Bool :=
  strEndsWith (pyLower filename) (".csv".data) && strContains (pyLower filename) ("mollie".data)

/-- `PDFImporter.can_handle`. -/
def pdfCanHandle (filename : List Char) : Bool :=
  strEndsWith (pyLower filename) (".pdf".data) || strEndsWith (pyLower filename) (".jpg".data) ||
  strEndsWith (pyLower filename) (".jpeg".data) || strEndsWith (pyLower filename) (".png".data)

/-- `DATEVImporter.can_handle`: any CSV file. -/
def datevCanHandle (filename : List Char) : Bool :=
  strEndsWith (pyLower filename) (".csv".data)

/-- The importers `ImporterFactory.__init__` registers, in precedence order.
`BankXMLImporter` exists in bank_xml.py (`can_handle` = extension `.xml`) but
is **not** in this list. -/
inductive ImporterKind where
  | bankCsvImporter
  | paypalImporter
  | stripeImporter
  | mollieImporter
  | pdfImporter
  | datevImporter
deriving DecidableEq, Repr

/-- `ImporterFactory.get_importer`: first registered importer whose
`can_handle` accepts the filename, else `None`. -/
def getImporter (filename : List Char) : Option ImporterKind :=
  if bankCsvCanHandle filename then some .bankCsvImporter
  else if paypalCanHandle filename then some .paypalImporter
  else if stripeCanHandle filename then some .stripeImporter
  else if mollieCanHandle filename then some .mollieImporter
  else if pdfCanHandle filename then some .pdfImporter
  else if datevCanHandle filename then some .datevImporter
  else none

end JA

namespace JA

/-! ## Matching engine (matching_service.py)

Score arithmetic (`float` in the code) is modelled as exact rational
arithmetic; the weight literals 0.4 / 0.2 / 0.25 / 0.15 / 0.1 become the
rationals 2/5, 1/5, 1/4, 3/20, 1/10.  Transaction amounts read from the
`DECIMAL(15,2)` column are rationals; booking dates are modelled as day
ordinals (`Int`), so a day difference is a subtraction. -/

/-- A transaction row as the matching service reads it; `None` text columns
are modelled as the empty string (the code coalesces them with `or ''`).
`rawPartnerName` is `raw_data.get('partner_name', '')`. -/
structure MatchTxn where
  amount : ℚ
  bookingDate : Option Int
  description : List Char
  accountName : List Char
  sourceType : List Char
  rawPartnerName : List Char

/-- `MatchingService._calculate_amount_score`: stepwise decay in the
percentage difference of absolute values, with `max(0, 1 - pct)` past 10%. -/
def calculateAmountScore (transactionAmount documentAmount : ℚ) : ℚ :=
  let ta := |transactionAmount|
  let da := |documentAmount|
  if da = 0 then 0
  else if ta = da then 1
  else
    let pct := |ta - da| / da
    if pct < 1/1000 then 99/100
    else if pct < 1/100 then 95/100
    else if pct < 1/50 then 85/100
    else if pct < 1/20 then 7/10
    else if pct < 1/10 then 1/2
    else max 0 (1 - pct)

/-- `MatchingService._calculate_date_score`: stepwise decay in the absolute
day difference, with `max(0, 1 - days/365)` past 30 days. -/
def calculateDateScore (transactionDate documentDate : Int) : ℚ :=
  let days := (transactionDate - documentDate).natAbs
  if days = 0 then 1
  else if days ≤ 1 then 19/20
  else if days ≤ 3 then 9/10
  else if days ≤ 7 then 4/5
  else if days ≤ 14 then 3/5
  else if days ≤ 30 then 2/5
  else max 0 (1 - (days : ℚ) / 365)

/-- The legal-entity suffixes `_normalize_text` removes, in source order. -/
def businessSuffixes : List (List Char) :=
  ["gmbh".data, "ag".data, "kg".data, "ohg".data, "ug".data, "e.k.".data, "e.v.".data,
   "inc".data, "ltd".data, "llc".data, "corp".data]

/-- Python regex `\w` (word character), restricted to ASCII. -/
def isWordChar (c : Char) : Bool := c.isAlpha || c.isDigit || c = '_'

/-- Python `str.split()` with no argument: split on whitespace runs, no empty
parts. -/
def pySplitWsAux : List Char → List Char → List (List Char)
  | [], acc => if acc = [] then [] else [acc.reverse]
  | c :: rest, acc =>
    if c.isWhitespace then
      if acc = [] then pySplitWsAux rest []
      else acc.reverse :: pySplitWsAux rest []
    else pySplitWsAux rest (c :: acc)

def pySplitWs (s : List Char) : List (List Char) := pySplitWsAux s []

/-- `MatchingService._normalize_text`: lowercase; for each legal-entity suffix
remove every occurrence of `' ' + suffix` and then of the bare suffix —
a plain substring replacement, not a word-boundary one; replace every
non-word, non-space character by a space; collapse whitespace. -/
def normalizeText (s : List Char) : List Char :=
  if s = [] then []
  else
    let t := pyLower s
    let t := businessSuffixes.foldl
      (fun acc suf => replaceAll suf [] (replaceAll (' ' :: suf) [] acc)) t
    let t := t.map (fun c => if isWordChar c || c.isWhitespace then c else ' ')
    let t := List.intercalate [' '] (pySplitWs t)
    pyStrip t

/-- Length of the common prefix of two strings. -/
def commonPrefixLen : List Char → List Char → Nat
  | a :: as, b :: bs => if a = b then commonPrefixLen as bs + 1 else 0
  | _, _ => 0

/-- `difflib.SequenceMatcher.find_longest_match` over the full ranges, for
inputs below the autojunk threshold (every string the matcher sees here is far
below 200 characters, so no element is ever junked): the longest common
substring, ties broken by least start in `a`, then least start in `b` — the
same preference the `j2len` scan realizes. -/
def findBestMatch (a b : List Char) : Nat × Nat × Nat :=
  (List.range (a.length + 1)).foldl (fun best i =>
    (List.range (b.length + 1)).foldl (fun best j =>
      let k := commonPrefixLen (a.drop i) (b.drop j)
      if k > best.2.2 then (i, j, k) else best) best) (0, 0, 0)

/-- Total size of all matching blocks (`get_matching_blocks`), by the standard
recursive split around the longest match.  Structural recursion on a fuel
argument always instantiated with `a.length + b.length`, which bounds the
recursion depth (every split strictly shrinks the combined length). -/
def matchingTotalFuel : Nat → List Char → List Char → Nat
  | 0, _, _ => 0
  | fuel + 1, a, b =>
    let m := findBestMatch a b
    if m.2.2 = 0 then 0
    else
      matchingTotalFuel fuel (a.take m.1) (b.take m.2.1) + m.2.2 +
        matchingTotalFuel fuel (a.drop (m.1 + m.2.2)) (b.drop (m.2.1 + m.2.2))

/-- `difflib.SequenceMatcher(None, a, b).ratio()`: `2M / T` (and 1.0 for two
empty strings). -/
def sequenceMatcherScore (a b : List Char) : ℚ :=
  if a.length + b.length = 0 then 1
  else 2 * (matchingTotalFuel (a.length + b.length) a b : ℚ) / ((a.length + b.length : Nat) : ℚ)

/-- `MatchingService._calculate_text_similarity`: 0 for a blank side; 1.0 on
equal normalizations; 0.9 on substring containment either way; else the
sequence-matcher score. -/
def calculateTextSimilarity (text1 text2 : List Char) : ℚ :=
  if text1 = [] ∨ text2 = [] then 0
  else
    let n1 := normalizeText text1
    let n2 := normalizeText text2
    if n1 = n2 then 1
    else if strContains n2 n1 ∨ strContains n1 n2 then 9/10
    else sequenceMatcherScore n1 n2

/-- The reference-prefix stripping regex
`^(inv|invoice|re|ref|nr|no)[\s\-\.:#]*` of `_find_reference_in_text`:
alternatives are tried left to right (`inv` shadows `invoice`, `re` shadows
`ref`), then separator characters are consumed greedily; a reference matching
no alternative is left unchanged. -/
def cleanReference (r : List Char) : List Char :=
  let alts := ["inv".data, "invoice".data, "re".data, "ref".data, "nr".data, "no".data]
  match alts.find? (fun a => a.isPrefixOf r) with
  | some a => (r.drop a.length).dropWhile
      (fun c => c.isWhitespace || c = '-' || c = '.' || c = ':' || c = '#')
  | none => r

/-- Maximal runs of digits (`re.findall(r'\d+', s)`). -/
def digitRunsAux : List Char → List Char → List (List Char)
  | [], acc => if acc = [] then [] else [acc.reverse]
  | c :: rest, acc =>
    if c.isDigit then digitRunsAux rest (c :: acc)
    else if acc = [] then digitRunsAux rest []
    else acc.reverse :: digitRunsAux rest []

def digitRuns (s : List Char) : List (List Char) := digitRunsAux s []

/-- `MatchingService._find_reference_in_text`: case-insensitive substring 1.0;
after prefix-stripping 0.95; a ≥4-digit numeric run of the reference found in
the (original-case) text 0.8; else 0. -/
def findReferenceInText (text reference : List Char) : ℚ :=
  if text = [] ∨ reference = [] then 0
  else
    let textLower := pyLower text
    let refLower := pyLower reference
    if strContains textLower refLower then 1
    else if strContains textLower (cleanReference refLower) then 95/100
    else if (digitRuns reference).any (fun n => 4 ≤ n.length ∧ strContains text n) then 4/5
    else 0

/-- Truthiness of an optional query string (`if vendor_name:` in Python is
false both for `None` and for the empty string). -/
def optTruthy : Option (List Char) → Bool
  | none => false
  | some s => s ≠ []

def optVal : Option (List Char) → List Char
  | none => []
  | some s => s

/-- `MatchingService._calculate_match_score`, the score component (the
`match_details` dictionary is reporting only): sequential accumulation with
weights 0.4 / 0.2-or-flat-0.1 / 0.25 / 0.15, then the PayPal partner-name
substitution (the enclosing `source_type in ['PAYPAL','STRIPE','MOLLIE']`
check is subsumed by the inner `== 'PAYPAL'`). -/
def calculateMatchScore (t : MatchTxn) (amount : ℚ) (documentDate : Option Int)
    (vendorName reference : Option (List Char)) : ℚ :=
  let amountScore := calculateAmountScore t.amount amount
  let score := amountScore * (2/5)
  let score := score +
    (match documentDate, t.bookingDate with
     | some dd, some bd => calculateDateScore bd dd * (1/5)
     | _, _ => 1/10)
  let bestVendor := max (calculateTextSimilarity t.accountName (optVal vendorName))
    (calculateTextSimilarity t.description (optVal vendorName))
  let score := if optTruthy vendorName then score + bestVendor * (1/4) else score
  let score := if optTruthy reference then
      score + findReferenceInText t.description (optVal reference) * (3/20)
    else score
  if t.sourceType = "PAYPAL".data ∧ optTruthy vendorName then
    if t.rawPartnerName ≠ [] then
      let paypalScore := calculateTextSimilarity t.rawPartnerName (optVal vendorName)
      if paypalScore > bestVendor then score - bestVendor * (1/4) + paypalScore * (1/4)
      else score
    else score
  else score

/-- `MatchingService._get_confidence_level`. -/
def getConfidenceLevel (score : ℚ) : List Char :=
  if score ≥ 9/10 then "very_high".data
  else if score ≥ 8/10 then "high".data
  else if score ≥ 7/10 then "medium".data
  else if score ≥ 5/10 then "low".data
  else "very_low".data

end JA

namespace JA

/-! ## Claim theorems -/

/-- C2 counterexample: the claim says every format parser resolves a string
with both separators by the rightmost one, so `"1,234.56"` would parse to
`1234.56` everywhere; the bank-CSV parser instead strips all dots first and
parses it to `1.23456`. -/
theorem c2_counterexample :
    PyDec.toQ (bankParseGermanDecimal ("1,234.56".data)) = 123456 / 100000 ∧
    (123456 / 100000 : ℚ) ≠ 123456 / 100 := by
  constructor
  · rw [show bankParseGermanDecimal ("1,234.56".data) = ⟨123456, 5⟩ from by decide]
    norm_num [PyDec.toQ]
  · norm_num

/-- C2 amended: the Stripe and Mollie amount parsers apply the
rightmost-separator rule (both `"1.234,56"` and `"1,234.56"` give `1234.56`
there); the bank-CSV, PayPal and DATEV decimal parsers do not — they always
strip dots and treat the comma as the decimal point, so `"1.234,56"` gives
`1234.56` but `"1,234.56"` gives `1.23456`; an only-comma string is read with
the comma as decimal point by every parser. -/
theorem c2_amended_separator_rules :
    PyDec.toQ (parseStripeAmount ("1.234,56".data)) = 123456 / 100 ∧
    PyDec.toQ (parseStripeAmount ("1,234.56".data)) = 123456 / 100 ∧
    PyDec.toQ (parseStripeAmount ("12,50".data)) = 25 / 2 ∧
    PyDec.toQ (mollieParseAmount ("1.234,56".data)) = 123456 / 100 ∧
    PyDec.toQ (mollieParseAmount ("1,234.56".data)) = 123456 / 100 ∧
    PyDec.toQ (mollieParseAmount ("12,50".data)) = 25 / 2 ∧
    PyDec.toQ (mollieParseAmount ("-12,50".data)) = -25 / 2 ∧
    PyDec.toQ (bankParseGermanDecimal ("1.234,56".data)) = 123456 / 100 ∧
    PyDec.toQ (bankParseGermanDecimal ("1,234.56".data)) = 123456 / 100000 ∧
    PyDec.toQ (bankParseGermanDecimal ("-12,50".data)) = -25 / 2 ∧
    PyDec.toQ (paypalParseGermanDecimal ("1.234,56".data)) = 123456 / 100 ∧
    PyDec.toQ (paypalParseGermanDecimal ("1,234.56".data)) = 123456 / 100000 ∧
    PyDec.toQ (paypalParseGermanDecimal ("-12,50".data)) = -25 / 2 ∧
    PyDec.toQ (datevParseGermanDecimal ("1.234,56".data)) = 123456 / 100 ∧
    PyDec.toQ (datevParseGermanDecimal ("1,234.56".data)) = 123456 / 100000 ∧
    PyDec.toQ (datevParseGermanDecimal ("-12,50".data)) = -25 / 2 := by
  refine ⟨?_, ?_, ?_, ?_, ?_, ?_, ?_, ?_, ?_, ?_, ?_, ?_, ?_, ?_, ?_, ?_⟩
  · rw [show parseStripeAmount ("1.234,56".data) = ⟨123456, 2⟩ from by decide]
    norm_num [PyDec.toQ]
  · rw [show parseStripeAmount ("1,234.56".data) = ⟨123456, 2⟩ from by decide]
    norm_num [PyDec.toQ]
  · rw [show parseStripeAmount ("12,50".data) = ⟨1250, 2⟩ from by decide]
    norm_num [PyDec.toQ]
  · rw [show mollieParseAmount ("1.234,56".data) = ⟨123456, 2⟩ from by decide]
    norm_num [PyDec.toQ]
  · rw [show mollieParseAmount ("1,234.56".data) = ⟨123456, 2⟩ from by decide]
    norm_num [PyDec.toQ]
  · rw [show mollieParseAmount ("12,50".data) = ⟨1250, 2⟩ from by decide]
    norm_num [PyDec.toQ]
  · rw [show mollieParseAmount ("-12,50".data) = ⟨-1250, 2⟩ from by decide]
    norm_num [PyDec.toQ]
  · rw [show bankParseGermanDecimal ("1.234,56".data) = ⟨123456, 2⟩ from by decide]
    norm_num [PyDec.toQ]
  · rw [show bankParseGermanDecimal ("1,234.56".data) = ⟨123456, 5⟩ from by decide]
    norm_num [PyDec.toQ]
  · rw [show bankParseGermanDecimal ("-12,50".data) = ⟨-1250, 2⟩ from by decide]
    norm_num [PyDec.toQ]
  · rw [show paypalParseGermanDecimal ("1.234,56".data) = ⟨123456, 2⟩ from by decide]
    norm_num [PyDec.toQ]
  · rw [show paypalParseGermanDecimal ("1,234.56".data) = ⟨123456, 5⟩ from by decide]
    norm_num [PyDec.toQ]
  · rw [show paypalParseGermanDecimal ("-12,50".data) = ⟨-1250, 2⟩ from by decide]
    norm_num [PyDec.toQ]
  · rw [show datevParseGermanDecimal ("1.234,56".data) = ⟨123456, 2⟩ from by decide]
    norm_num [PyDec.toQ]
  · rw [show datevParseGermanDecimal ("1,234.56".data) = ⟨123456, 5⟩ from by decide]
    norm_num [PyDec.toQ]
  · rw [show datevParseGermanDecimal ("-12,50".data) = ⟨-1250, 2⟩ from by decide]
    norm_num [PyDec.toQ]

/-- C4: in the Stripe amount parser, every amount string whose normalized
form carries no decimal point and reads as an integer `v` is parsed to
`v / 100` when `v > 999` (minor-unit heuristic) and to `v` otherwise; in
particular `"1500"` parses to `15.00` and `"15.00"` stays `15.00`. -/
theorem c4_stripe_integer_heuristic :
    (∀ (s : List Char) (v : Int),
      pyStrip s ≠ [] →
      strContains (stripeNormalizeSeparators (pyStrip s)) ['.'] = false →
      pyParseInt (stripeNormalizeSeparators (pyStrip s)) = some v →
      PyDec.toQ (parseStripeAmount s) = if v > 999 then (v : ℚ) / 100 else (v : ℚ)) ∧
    PyDec.toQ (parseStripeAmount ("1500".data)) = 15 ∧
    PyDec.toQ (parseStripeAmount ("15.00".data)) = 15 := by
  refine ⟨?_, ?_, ?_⟩
  · intro s v hne hdot hint
    unfold parseStripeAmount
    rw [if_neg hne]
    simp only [hdot, Bool.false_eq_true, if_false, hint]
    by_cases hv : v > 999
    · rw [if_pos hv, if_pos hv]
      norm_num [PyDec.toQ]
    · rw [if_neg hv, if_neg hv]
      norm_num [PyDec.toQ]
  · rw [show parseStripeAmount ("1500".data) = ⟨1500, 2⟩ from by decide]
    norm_num [PyDec.toQ]
  · rw [show parseStripeAmount ("15.00".data) = ⟨1500, 2⟩ from by decide]
    norm_num [PyDec.toQ]

/-- C4 witness: the generic heuristic applied to the concrete string
`"1500"`. -/
theorem c4_stripe_integer_heuristic_witness :
    pyStrip ("1500".data) ≠ [] ∧
    strContains (stripeNormalizeSeparators (pyStrip ("1500".data))) ['.'] = false ∧
    pyParseInt (stripeNormalizeSeparators (pyStrip ("1500".data))) = some 1500 ∧
    PyDec.toQ (parseStripeAmount ("1500".data)) =
      if (1500 : Int) > 999 then (1500 : ℚ) / 100 else (1500 : ℚ) :=
  ⟨by decide, by decide, by decide,
    c4_stripe_integer_heuristic.1 ("1500".data) 1500 (by decide) (by decide) (by decide)⟩

/-- C8 counterexample: the claim says account numbers are truncated to at
most 20 characters at the persistence boundary; the bank-CSV save loop passes
the 23-character account number through unchanged. -/
theorem c8_counterexample :
    ((bankSaveRow
      { reference := [], bookingDate := none, amount := ⟨100, 0⟩, valueDate := none,
        partnerName := [], purpose := [],
        accountNumber := "DE001234567890123456789".data }).accountNumber).length = 23 ∧
    ¬ ((bankSaveRow
      { reference := [], bookingDate := none, amount := ⟨100, 0⟩, valueDate := none,
        partnerName := [], purpose := [],
        accountNumber := "DE001234567890123456789".data }).accountNumber).length ≤ 20 := by
  constructor
  · decide
  · decide

/-- C8 amended: at the bank-CSV persistence boundary the description is
truncated to 500 characters and the partner name to 100, but the account
number is stored exactly as parsed — the code applies no 20-character cap
(the schema's `String(20)` column is not enforced in the importer). -/
theorem c8_amended_truncation :
    ∀ t : BankRow,
      (bankSaveRow t).description.length ≤ 500 ∧
      (bankSaveRow t).accountName.length ≤ 100 ∧
      (bankSaveRow t).accountNumber = t.accountNumber := by
  intro t
  refine ⟨?_, ?_, rfl⟩
  · simp only [bankSaveRow, List.length_take]
    exact Nat.min_le_left 500 t.purpose.length
  · simp only [bankSaveRow, List.length_take]
    exact Nat.min_le_left 100 t.partnerName.length

/-- C9: DATEV classic 4-character `DDMM` date parsing takes the year from the
system clock, so the same input string parsed under two different current
years yields two different booking dates — the parse is not a function of the
file content alone. -/
theorem c9_ddmm_year_from_clock :
    ∀ (s : List Char) (y1 y2 : Int) (d1 d2 : PyDate),
      s.length = 4 →
      datevParseDate y1 s = some d1 →
      datevParseDate y2 s = some d2 →
      y1 ≠ y2 → d1 ≠ d2 := by
  intro s y1 y2 d1 d2 hlen h1 h2 hy
  have hne : s ≠ [] := by
    intro h
    rw [h] at hlen
    simp at hlen
  unfold datevParseDate at h1 h2
  rw [if_neg hne, if_pos hlen] at h1 h2
  rcases hd : digitsToNat (s.take 2) with _ | d
  · simp only [hd] at h1
    simp at h1
  rcases hm : digitsToNat (s.drop 2) with _ | m
  · simp only [hd, hm] at h1
    simp at h1
  simp only [hd, hm] at h1 h2
  simp only [mkPyDate] at h1 h2
  split_ifs at h1 h2
  have e1 : (⟨y1, m, d⟩ : PyDate) = d1 := by injection h1
  have e2 : (⟨y2, m, d⟩ : PyDate) = d2 := by injection h2
  intro hcontra
  exact hy (congrArg PyDate.year ((e1.trans hcontra).trans e2.symm))

/-- C9 witness: `"0103"` parsed in 2024 and in 2025. -/
theorem c9_ddmm_year_from_clock_witness :
    ("0103".data).length = 4 ∧
    datevParseDate 2024 ("0103".data) = some ⟨2024, 3, 1⟩ ∧
    datevParseDate 2025 ("0103".data) = some ⟨2025, 3, 1⟩ ∧
    (2024 : Int) ≠ 2025 ∧
    (⟨2024, 3, 1⟩ : PyDate) ≠ ⟨2025, 3, 1⟩ :=
  ⟨by decide, by decide, by decide, by decide,
    c9_ddmm_year_from_clock ("0103".data) 2024 2025 _ _ (by decide) (by decide) (by decide)
      (by decide)⟩

end JA

namespace JA

/-- Negation commutes with the Decimal zero test. -/
lemma PyDec.isZero_neg (d : PyDec) : d.neg.isZero = d.isZero := by
  simp [PyDec.neg, PyDec.isZero]

/-- A Bank-CSV row used as a concrete import instance in witnesses. -/
def goodBankRow : List (List Char) :=
  ["REF1".data, "01.03.2024".data, "-119,00".data, "01.03.2024".data, [],
   "ACME GmbH".data, "Invoice 2024-001".data, "DE0001".data]

/-- The transaction `goodBankRow` parses to. -/
def goodBankParsed : BankRow :=
  { reference := "REF1".data, bookingDate := some ⟨2024, 3, 1⟩, amount := ⟨-11900, 2⟩,
    valueDate := some ⟨2024, 3, 1⟩, partnerName := "ACME GmbH".data,
    purpose := "Invoice 2024-001".data, accountNumber := "DE0001".data }

/-- C3 counterexample: the claim says zero-amount rows are excluded by every
row parser including both DATEV sub-formats; the DATEV classic parser appends
a 10-column row whose amount field is `"0,00"` — its output contains a
transaction of value zero. -/
theorem c3_counterexample :
    (datevParseClassic 2024
      [["0,00".data, "S".data, "1200".data, "1800".data, "0103".data, "B1".data, [],
        "Filler".data, [], []]]).map (fun t => t.amount) = [⟨0, 2⟩] ∧
    PyDec.toQ ⟨0, 2⟩ = 0 := by
  constructor
  · decide
  · norm_num [PyDec.toQ]

/-- C3 amended: the zero-amount exclusion holds for the bank-CSV row parser
and the DATEV document-export row parser; the Stripe save loop keeps
failed/declined rows for audit with amount forced to zero and a `[FAILED] `
marker prefixed to the description; the DATEV classic parser applies no
zero-amount filter at all (see the counterexample). -/
theorem c3_zero_amount_invariant :
    (∀ (rows : List (List (List Char))) (t : BankRow),
      t ∈ bankParseCsv rows → t.amount.isZero = false) ∧
    (∀ (rows : List (List (List Char × List Char))) (t : DatevDocTxn),
      t ∈ datevParseDocExport rows → t.amount.isZero = false) ∧
    (∀ t : StripeTxn, t.isSuccessful = false →
      (stripeSaveRow t).amount = PyDec.zero ∧
      (stripeSaveRow t).description = ("[FAILED] ".data) ++ stripeBuildDescription t) := by
  refine ⟨?_, ?_, ?_⟩
  · intro rows
    induction rows with
    | nil => intro t ht; simp [bankParseCsv] at ht
    | cons row rest ih =>
      intro t ht
      unfold bankParseCsv at ht
      split_ifs at ht with h1 h2
      · exact ih t ht
      · exact ih t ht
      · rcases hp : bankParseTransactionRow row with _ | t'
        · rw [hp] at ht
          exact ih t ht
        · rw [hp] at ht
          rcases List.mem_cons.mp ht with rfl | hmem
          · simp only [bankParseTransactionRow] at hp
            by_cases hz : (bankParseGermanDecimal (row.getD 2 [])).isZero = true
            · rw [if_pos hz] at hp
              exact Option.noConfusion hp
            · rw [if_neg hz] at hp
              injection hp with hp'
              simp only [Bool.not_eq_true] at hz
              rw [← hp']
              exact hz
          · exact ih t hmem
  · intro rows t ht
    obtain ⟨r, _, hf⟩ := List.mem_filterMap.mp ht
    split_ifs at hf with hbel
    simp only [datevDocParseRow] at hf
    rw [if_neg hbel] at hf
    by_cases hz : (datevDocAmount r).isZero = true
    · rw [if_pos hz] at hf
      exact Option.noConfusion hf
    · rw [if_neg hz] at hf
      injection hf with hf'
      simp only [Bool.not_eq_true] at hz
      rw [← hf']
      simp only [apply_ite PyDec.isZero, PyDec.isZero_neg, ite_self]
      exact hz
  · intro t h
    constructor
    · simp [stripeSaveRow, h]
    · simp [stripeSaveRow, h]

/-- C3 witness: a parsed bank row with non-zero amount, and a failed Stripe
transaction saved with zero amount and the failure marker. -/
theorem c3_zero_amount_invariant_witness :
    goodBankParsed ∈ bankParseCsv [goodBankRow] ∧
    goodBankParsed.amount.isZero = false ∧
    ({ stripeId := "ch_1".data, bookingDate := none, amount := ⟨500, 2⟩,
       amountRefunded := ⟨0, 0⟩, fee := ⟨0, 0⟩, netAmount := ⟨500, 2⟩,
       status := "Failed".data, description := "Order 42".data, customerEmail := [],
       statementDescriptor := [], metadataPairs := [],
       isSuccessful := false } : StripeTxn).isSuccessful = false ∧
    (stripeSaveRow
      { stripeId := "ch_1".data, bookingDate := none, amount := ⟨500, 2⟩,
        amountRefunded := ⟨0, 0⟩, fee := ⟨0, 0⟩, netAmount := ⟨500, 2⟩,
        status := "Failed".data, description := "Order 42".data, customerEmail := [],
        statementDescriptor := [], metadataPairs := [],
        isSuccessful := false }).amount = PyDec.zero := by
  refine ⟨by decide, c3_zero_amount_invariant.1 [goodBankRow] goodBankParsed (by decide),
    by decide, (c3_zero_amount_invariant.2.2 _ (by decide)).1⟩

/-- C6 counterexample: the claim says an import whose rows all fail still
succeeds with the empty list; `import_file` instead raises
`"No transactions found in CSV file"` when no row survives (here the single
row's amount is unparsable, so it is skipped and the survivor list is empty). -/
theorem c6_counterexample :
    bankImportFile [["R1".data, "01.03.2024".data, "abc".data, [], [], [], [], []]] =
      Except.error ("No transactions found in CSV file".data) := by
  rfl

/-- C6 amended: inside `_parse_bank_csv` each row is handled independently and
the result is exactly the list of rows that parsed (a `filterMap` of the
per-row outcome); `import_file` returns that list whenever it is non-empty,
but raises when every row failed. -/
theorem c6_row_fault_isolation :
    (∀ rows, bankParseCsv rows = rows.filterMap bankRowOutcome) ∧
    (∀ rows, bankParseCsv rows ≠ [] →
      bankImportFile rows = Except.ok (bankParseCsv rows)) := by
  constructor
  · intro rows
    induction rows with
    | nil => rfl
    | cons row rest ih =>
      by_cases h1 : row.length < 8
      · have hro : bankRowOutcome row = none := by
          unfold bankRowOutcome
          rw [if_pos h1]
        rw [List.filterMap_cons_none hro]
        unfold bankParseCsv
        rw [if_pos h1]
        exact ih
      · by_cases h2 : row.getD 0 [] = [] ∨ row.getD 1 [] = [] ∨ row.getD 2 [] = []
        · have hro : bankRowOutcome row = none := by
            unfold bankRowOutcome
            rw [if_neg h1, if_pos h2]
          rw [List.filterMap_cons_none hro]
          unfold bankParseCsv
          rw [if_neg h1, if_pos h2]
          exact ih
        · rcases hp : bankParseTransactionRow row with _ | t
          · have hro : bankRowOutcome row = none := by
              unfold bankRowOutcome
              rw [if_neg h1, if_neg h2, hp]
            rw [List.filterMap_cons_none hro]
            unfold bankParseCsv
            rw [if_neg h1, if_neg h2, hp]
            exact ih
          · have hro : bankRowOutcome row = some t := by
              unfold bankRowOutcome
              rw [if_neg h1, if_neg h2, hp]
            rw [List.filterMap_cons_some hro]
            unfold bankParseCsv
            rw [if_neg h1, if_neg h2, hp]
            rw [ih]
  · intro rows h
    unfold bankImportFile
    simp only [ne_eq] at h
    rw [if_neg h]

/-- C6 witness: a one-good-row import returns exactly its parsed list. -/
theorem c6_row_fault_isolation_witness :
    bankParseCsv [goodBankRow] ≠ [] ∧
    bankImportFile [goodBankRow] = Except.ok (bankParseCsv [goodBankRow]) :=
  ⟨by decide, c6_row_fault_isolation.2 [goodBankRow] (by decide)⟩

end JA

namespace JA

/-- Two same-length suffixes of the same string coincide. -/
lemma strEndsWith_eq_of_length_eq {l p q : List Char}
    (hp : strEndsWith l p = true) (hq : strEndsWith l q = true)
    (hl : p.length = q.length) : p = q := by
  simp only [strEndsWith, Bool.and_eq_true, decide_eq_true_eq] at hp hq
  rw [← hp.2, ← hq.2, hl]

/-- A filename ending in `.xml` ends in none of the extensions the other
registered detectors test. -/
lemma endsWith_xml_excludes {l : List Char}
    (hx : strEndsWith l (".xml".data) = true) :
    strEndsWith l (".csv".data) = false ∧ strEndsWith l (".pdf".data) = false ∧
    strEndsWith l (".jpg".data) = false ∧ strEndsWith l (".jpeg".data) = false ∧
    strEndsWith l (".png".data) = false := by
  refine ⟨?_, ?_, ?_, ?_, ?_⟩
  · cases h : strEndsWith l (".csv".data)
    · rfl
    · exact absurd (strEndsWith_eq_of_length_eq h hx (by decide)) (by decide)
  · cases h : strEndsWith l (".pdf".data)
    · rfl
    · exact absurd (strEndsWith_eq_of_length_eq h hx (by decide)) (by decide)
  · cases h : strEndsWith l (".jpg".data)
    · rfl
    · exact absurd (strEndsWith_eq_of_length_eq h hx (by decide)) (by decide)
  · cases h : strEndsWith l (".jpeg".data)
    · rfl
    · exfalso
      simp only [strEndsWith, Bool.and_eq_true, decide_eq_true_eq] at h hx
      have h5 : (".jpeg".data).length ≤ l.length := h.1
      rw [show (".jpeg".data).length = 5 from by decide] at h5
      have e1 : List.drop (l.length - 4) l = List.drop 1 (List.drop (l.length - 5) l) := by
        rw [List.drop_drop]
        congr 1
        omega
      rw [show (".jpeg".data).length = 5 from by decide] at h
      rw [show (".xml".data).length = 4 from by decide] at hx
      rw [h.2] at e1
      rw [hx.2] at e1
      exact absurd e1 (by decide)
  · cases h : strEndsWith l (".png".data)
    · rfl
    · exact absurd (strEndsWith_eq_of_length_eq h hx (by decide)) (by decide)

/-- C5 counterexample: the claim says every `.xml` filename is routed to the
bank-XML importer; the factory never registers that importer, and this `.xml`
filename matches no registered detector at all — the import is rejected as
unsupported. -/
theorem c5_counterexample :
    strEndsWith (pyLower ("export.xml".data)) (".xml".data) = true ∧
    getImporter ("export.xml".data) = none := by
  constructor
  · decide
  · decide

/-- C5 amended: the factory registers no bank-XML importer; a filename whose
lowercase form ends in `.xml`, does not contain `konto` and does not match the
bank digit pattern is accepted by no registered detector, so the coordinator
rejects it as an unsupported format (a `.xml` name containing `konto` would
instead be claimed by the bank-CSV detector). -/
theorem c5_xml_never_bankxml :
    ∀ f : List Char,
      strEndsWith (pyLower f) (".xml".data) = true →
      strContains (pyLower f) ("konto".data) = false →
      bankCsvFilePattern (pyLower f) = false →
      getImporter f = none := by
  intro f hx hk hr
  obtain ⟨hcsv, hpdf, hjpg, hjpeg, hpng⟩ := endsWith_xml_excludes hx
  unfold getImporter bankCsvCanHandle paypalCanHandle stripeCanHandle mollieCanHandle
    pdfCanHandle datevCanHandle
  rw [hk, hr, hcsv, hpdf, hjpg, hjpeg, hpng]
  rfl

/-- C5 witness: a concrete `.xml` filename run through the amended statement. -/
theorem c5_xml_never_bankxml_witness :
    strEndsWith (pyLower ("statement.xml".data)) (".xml".data) = true ∧
    strContains (pyLower ("statement.xml".data)) ("konto".data) = false ∧
    bankCsvFilePattern (pyLower ("statement.xml".data)) = false ∧
    getImporter ("statement.xml".data) = none :=
  ⟨by decide, by decide, by decide,
    c5_xml_never_bankxml ("statement.xml".data) (by decide) (by decide) (by decide)⟩

/-- C10: the vendor normalization deletes each legal-entity suffix as a plain
substring anywhere in the lowercased text (here `ag` inside `Agentur`, leaving
`entur`), and the text-similarity sub-score is computed on that mangled
remainder: for every non-blank text, its similarity against `"Agentur"` is the
cascade evaluated between its own normalization and `"entur"`. -/
theorem c10_suffix_deleted_inside_words :
    normalizeText ("Agentur".data) = "entur".data ∧
    normalizeText ("Agentur".data) ≠ pyLower ("Agentur".data) ∧
    (∀ t : List Char, t ≠ [] →
      calculateTextSimilarity t ("Agentur".data) =
        (if normalizeText t = "entur".data then 1
         else if strContains ("entur".data) (normalizeText t) ∨
                  strContains (normalizeText t) ("entur".data) then (9/10 : ℚ)
         else sequenceMatcherScore (normalizeText t) ("entur".data))) := by
  have hA : normalizeText ("Agentur".data) = "entur".data := by decide
  refine ⟨hA, by decide, ?_⟩
  intro t ht
  simp only [calculateTextSimilarity, hA]
  rw [if_neg (by simp [ht])]

/-- C10 witness: the general statement applied at `t = "Agentur"`, whose
normalization equals the mangled remainder, giving sub-score 1. -/
theorem c10_suffix_deleted_inside_words_witness :
    ("Agentur".data ≠ ([] : List Char)) ∧
    calculateTextSimilarity ("Agentur".data) ("Agentur".data) = 1 := by
  refine ⟨by decide, ?_⟩
  rw [c10_suffix_deleted_inside_words.2.2 ("Agentur".data) (by decide)]
  rw [if_pos c10_suffix_deleted_inside_words.1]

end JA

namespace JA

/-- Percentage difference of absolute values, the quantity
`_calculate_amount_score` branches on. -/
def pctDiff (x a : ℚ) : ℚ := |(|x| - |a|)| / |a|

/-- Absolute day difference, the quantity `_calculate_date_score` branches
on. -/
def dayDiff (b d : Int) : ℕ := (b - d).natAbs

/-- The date contribution of `_calculate_match_score`: 0.2 × the date
sub-score only when both a query date and a transaction booking date exist,
else the flat 0.1. -/
def dateContribution (t : MatchTxn) (documentDate : Option Int) : ℚ :=
  match documentDate, t.bookingDate with
  | some dd, some bd => calculateDateScore bd dd * (1/5)
  | _, _ => 1/10

/-- The vendor sub-score `_calculate_match_score` effectively weights by 0.25:
the better of the account-name and description similarities, replaced by the
PayPal partner-name similarity when the transaction is a PayPal one with a
recorded partner and that similarity is strictly better. -/
def effectiveVendorScore (t : MatchTxn) (v : List Char) : ℚ :=
  let best := max (calculateTextSimilarity t.accountName v)
    (calculateTextSimilarity t.description v)
  if t.sourceType = "PAYPAL".data ∧ t.rawPartnerName ≠ [] ∧
      calculateTextSimilarity t.rawPartnerName v > best then
    calculateTextSimilarity t.rawPartnerName v
  else best

/-- The sequential score accumulation of `_calculate_match_score`, abstracted
over its five numeric sub-scores and four branch conditions, equals the
weighted-sum form. -/
lemma weightedSeqDecomp (A D B P R5 : ℚ) (cs cv cr cp : Prop)
    [Decidable cs] [Decidable cv] [Decidable cr] [Decidable cp] :
    (let score := A * (2/5)
     let score := score + D
     let score := if cv then score + B * (1/4) else score
     let score := if cr then score + R5 * (3/20) else score
     if cs ∧ cv then
       if cp then
         let paypalScore := P
         if paypalScore > B then score - B * (1/4) + paypalScore * (1/4) else score
       else score
     else score) =
      A * (2/5) + D + (if cv then (if cs ∧ cp ∧ P > B then P else B) * (1/4) else 0)
      + (if cr then R5 * (3/20) else 0) := by
  by_cases hs : cs <;> by_cases hv : cv <;> by_cases hr : cr <;> by_cases hp : cp <;>
    by_cases hpb : P > B <;>
      simp only [hs, hv, hr, hp, hpb, and_true, true_and, and_false, false_and, if_true,
        if_false, ite_true, ite_false, and_self] <;>
      ring

lemma calculateMatchScore_decomp (t : MatchTxn) (a : ℚ) (dd : Option Int)
    (v r : Option (List Char)) :
    calculateMatchScore t a dd v r =
      calculateAmountScore t.amount a * (2/5)
      + dateContribution t dd
      + (if optTruthy v then effectiveVendorScore t (optVal v) * (1/4) else 0)
      + (if optTruthy r then findReferenceInText t.description (optVal r) * (3/20) else 0) := by
  unfold calculateMatchScore dateContribution effectiveVendorScore
  exact weightedSeqDecomp (calculateAmountScore t.amount a)
    (match dd, t.bookingDate with
     | some d, some bd => calculateDateScore bd d * (1/5)
     | _, _ => (1/10 : ℚ))
    (max (calculateTextSimilarity t.accountName (optVal v))
      (calculateTextSimilarity t.description (optVal v)))
    (calculateTextSimilarity t.rawPartnerName (optVal v))
    (findReferenceInText t.description (optVal r))
    (t.sourceType = "PAYPAL".data) (optTruthy v = true) (optTruthy r = true)
    (t.rawPartnerName ≠ [])

lemma pctDiff_nonneg (x a : ℚ) : 0 ≤ pctDiff x a :=
  div_nonneg (abs_nonneg _) (abs_nonneg _)

/-- `_calculate_amount_score` as a function of the percentage difference. -/
lemma calculateAmountScore_eq_pct (x a : ℚ) (ha : a ≠ 0) :
    calculateAmountScore x a =
      if pctDiff x a = 0 then 1
      else if pctDiff x a < 1/1000 then 99/100
      else if pctDiff x a < 1/100 then 95/100
      else if pctDiff x a < 1/50 then 85/100
      else if pctDiff x a < 1/20 then 7/10
      else if pctDiff x a < 1/10 then 1/2
      else max 0 (1 - pctDiff x a) := by
  simp only [calculateAmountScore, pctDiff]
  have hda : |a| ≠ 0 := abs_ne_zero.mpr ha
  rw [if_neg hda]
  by_cases he : |x| = |a|
  · have h0 : |(|x| - |a|)| / |a| = 0 := by rw [he]; simp
    rw [if_pos he, if_pos h0]
  · have h0 : ¬(|(|x| - |a|)| / |a| = 0) := by
      intro hc
      rcases div_eq_zero_iff.mp hc with h | h
      · exact (abs_ne_zero.mpr (sub_ne_zero.mpr he)) h
      · exact hda h
    rw [if_neg he, if_neg h0]

lemma amountScore_anti_low (x1 x2 a : ℚ) (ha : a ≠ 0)
    (h12 : pctDiff x1 a ≤ pctDiff x2 a) (h2 : pctDiff x2 a < 1/10) :
    calculateAmountScore x2 a ≤ calculateAmountScore x1 a := by
  rw [calculateAmountScore_eq_pct x1 a ha, calculateAmountScore_eq_pct x2 a ha]
  have h01 := pctDiff_nonneg x1 a
  have h02 := pctDiff_nonneg x2 a
  by_cases hz2 : pctDiff x2 a = 0
  · have hz1 : pctDiff x1 a = 0 := le_antisymm (hz2 ▸ h12) h01
    rw [if_pos hz1, if_pos hz2]
  · by_cases hz1 : pctDiff x1 a = 0
    · rw [if_pos hz1, if_neg hz2]
      split_ifs <;> linarith
    · rw [if_neg hz1, if_neg hz2]
      have hp1 : 0 < pctDiff x1 a := lt_of_le_of_ne h01 (Ne.symm hz1)
      split_ifs <;> linarith

lemma amountScore_anti_high (x1 x2 a : ℚ) (ha : a ≠ 0)
    (h12 : pctDiff x1 a ≤ pctDiff x2 a) (h1 : 1/10 ≤ pctDiff x1 a) :
    calculateAmountScore x2 a ≤ calculateAmountScore x1 a := by
  rw [calculateAmountScore_eq_pct x1 a ha, calculateAmountScore_eq_pct x2 a ha]
  have hz1 : pctDiff x1 a ≠ 0 := by
    intro h
    rw [h] at h1
    norm_num at h1
  have hz2 : pctDiff x2 a ≠ 0 := by
    intro h
    rw [h] at h12
    have := le_antisymm h12 (pctDiff_nonneg x1 a)
    exact hz1 this
  rw [if_neg hz1, if_neg hz2]
  split_ifs <;> first | linarith | exact max_le_max le_rfl (by linarith)

lemma dateScore_anti_low (b1 b2 d : Int)
    (h12 : dayDiff b1 d ≤ dayDiff b2 d) (h2 : dayDiff b2 d ≤ 30) :
    calculateDateScore b2 d ≤ calculateDateScore b1 d := by
  simp only [calculateDateScore]
  rw [show (b1 - d).natAbs = dayDiff b1 d from rfl,
    show (b2 - d).natAbs = dayDiff b2 d from rfl]
  split_ifs <;> first | (exfalso; omega) | norm_num

lemma dateScore_anti_high (b1 b2 d : Int)
    (h12 : dayDiff b1 d ≤ dayDiff b2 d) (h1 : 31 ≤ dayDiff b1 d) :
    calculateDateScore b2 d ≤ calculateDateScore b1 d := by
  simp only [calculateDateScore]
  rw [show (b1 - d).natAbs = dayDiff b1 d from rfl,
    show (b2 - d).natAbs = dayDiff b2 d from rfl]
  split_ifs <;>
    first
      | (exfalso; omega)
      | exact max_le_max le_rfl (by
          have := (Nat.cast_le (α := ℚ)).mpr h12
          linarith)

end JA

namespace JA

/-- A neutral transaction used to build concrete matching instances. -/
def plainTxn : MatchTxn :=
  { amount := 0, bookingDate := none, description := [], accountName := [],
    sourceType := "BANK_CSV".data, rawPartnerName := [] }

/-- C7 counterexample: the claim says the flat 0.10 date contribution occurs
exactly when no query date is supplied; for a transaction without a booking
date the code contributes the flat 0.10 although a query date **is** supplied
— the score equals the no-date score, namely 0.4·amountScore + 0.1 = 0.5. -/
theorem c7_counterexample :
    calculateMatchScore { plainTxn with amount := 100 } 100 (some 0) none none =
      calculateMatchScore { plainTxn with amount := 100 } 100 none none none ∧
    calculateMatchScore { plainTxn with amount := 100 } 100 (some 0) none none = 1/2 ∧
    calculateAmountScore 100 100 = 1 := by
  refine ⟨rfl, ?_, ?_⟩
  · rw [calculateMatchScore_decomp]
    rw [show dateContribution { plainTxn with amount := 100 } (some 0) = 1/10 from rfl]
    rw [show ({ plainTxn with amount := 100 } : MatchTxn).amount = 100 from rfl]
    simp only [optTruthy, Bool.false_eq_true, if_false, ite_false]
    rw [show calculateAmountScore 100 100 = 1 by norm_num [calculateAmountScore]]
    norm_num
  · norm_num [calculateAmountScore]

/-- C7 amended: the overall score is the weighted sum 0.40·amount sub-score,
plus 0.20·date sub-score when **both** a query date and a transaction booking
date exist (flat 0.10 whenever either is missing), plus 0.25·the effective
vendor sub-score when a vendor name is supplied (the best of account-name and
description similarity, substituted by the PayPal partner-name similarity when
that transaction is a PayPal one with a strictly better partner similarity),
plus 0.15·reference sub-score when a reference is supplied; weights are never
re-normalized. -/
theorem c7_weighted_combination (t : MatchTxn) (a : ℚ) (dd : Option Int)
    (v r : Option (List Char)) :
    calculateMatchScore t a dd v r =
      calculateAmountScore t.amount a * (2/5)
      + (match dd, t.bookingDate with
         | some d, some bd => calculateDateScore bd d * (1/5)
         | _, _ => (1/10 : ℚ))
      + (if optTruthy v then effectiveVendorScore t (optVal v) * (1/4) else 0)
      + (if optTruthy r then findReferenceInText t.description (optVal r) * (3/20) else 0) :=
  calculateMatchScore_decomp t a dd v r

/-- C1 counterexample: the claim says the overall score is monotonically
non-increasing in the amount percentage difference; a 9% difference scores
0.4·0.5 + 0.1 = 0.3 while a 10% difference falls into the `max(0, 1 − pct)`
fallback and scores 0.4·0.9 + 0.1 = 0.46 — the farther amount ranks strictly
higher. -/
theorem c1_counterexample :
    pctDiff 109 100 < pctDiff 110 100 ∧
    calculateMatchScore { plainTxn with amount := 109 } 100 none none none = 3/10 ∧
    calculateMatchScore { plainTxn with amount := 110 } 100 none none none = 23/50 ∧
    calculateMatchScore { plainTxn with amount := 109 } 100 none none none <
      calculateMatchScore { plainTxn with amount := 110 } 100 none none none := by
  have h109 : calculateMatchScore { plainTxn with amount := 109 } 100 none none none = 3/10 := by
    rw [calculateMatchScore_decomp]
    rw [show dateContribution { plainTxn with amount := 109 } none = 1/10 from rfl]
    rw [show ({ plainTxn with amount := 109 } : MatchTxn).amount = 109 from rfl]
    simp only [optTruthy, Bool.false_eq_true, if_false, ite_false]
    rw [show calculateAmountScore 109 100 = 1/2 by norm_num [calculateAmountScore, abs_of_pos]]
    norm_num
  have h110 : calculateMatchScore { plainTxn with amount := 110 } 100 none none none = 23/50 := by
    rw [calculateMatchScore_decomp]
    rw [show dateContribution { plainTxn with amount := 110 } none = 1/10 from rfl]
    rw [show ({ plainTxn with amount := 110 } : MatchTxn).amount = 110 from rfl]
    simp only [optTruthy, Bool.false_eq_true, if_false, ite_false]
    rw [show calculateAmountScore 110 100 = 9/10 by norm_num [calculateAmountScore, abs_of_pos]]
    norm_num
  refine ⟨by norm_num [pctDiff, abs_of_pos], h109, h110, ?_⟩
  rw [h109, h110]
  norm_num

/-- C1 amended: holding every other criterion fixed, the overall match score
is monotonically non-increasing in the amount percentage difference within
the stepwise region (both differences below 10%) and within the fallback
region (both at or above 10%), and in the booking-date day difference within
the stepwise region (both at most 30 days) and within the fallback region
(both above 30 days); across those regional boundaries the monotonicity fails
(see the counterexample). -/
theorem c1_regional_monotonicity :
    (∀ (t : MatchTxn) (a : ℚ) (dd : Option Int) (v r : Option (List Char)) (x1 x2 : ℚ),
      a ≠ 0 → pctDiff x1 a ≤ pctDiff x2 a → pctDiff x2 a < 1/10 →
      calculateMatchScore { t with amount := x2 } a dd v r ≤
        calculateMatchScore { t with amount := x1 } a dd v r) ∧
    (∀ (t : MatchTxn) (a : ℚ) (dd : Option Int) (v r : Option (List Char)) (x1 x2 : ℚ),
      a ≠ 0 → pctDiff x1 a ≤ pctDiff x2 a → 1/10 ≤ pctDiff x1 a →
      calculateMatchScore { t with amount := x2 } a dd v r ≤
        calculateMatchScore { t with amount := x1 } a dd v r) ∧
    (∀ (t : MatchTxn) (a : ℚ) (d : Int) (v r : Option (List Char)) (b1 b2 : Int),
      dayDiff b1 d ≤ dayDiff b2 d → dayDiff b2 d ≤ 30 →
      calculateMatchScore { t with bookingDate := some b2 } a (some d) v r ≤
        calculateMatchScore { t with bookingDate := some b1 } a (some d) v r) ∧
    (∀ (t : MatchTxn) (a : ℚ) (d : Int) (v r : Option (List Char)) (b1 b2 : Int),
      dayDiff b1 d ≤ dayDiff b2 d → 31 ≤ dayDiff b1 d →
      calculateMatchScore { t with bookingDate := some b2 } a (some d) v r ≤
        calculateMatchScore { t with bookingDate := some b1 } a (some d) v r) := by
  refine ⟨?_, ?_, ?_, ?_⟩
  · intro t a dd v r x1 x2 ha h12 h2
    rw [calculateMatchScore_decomp, calculateMatchScore_decomp]
    rw [show ({ t with amount := x2 } : MatchTxn).amount = x2 from rfl,
      show ({ t with amount := x1 } : MatchTxn).amount = x1 from rfl,
      show dateContribution { t with amount := x2 } dd = dateContribution { t with amount := x1 } dd from rfl,
      show effectiveVendorScore { t with amount := x2 } (optVal v) =
        effectiveVendorScore { t with amount := x1 } (optVal v) from rfl,
      show ({ t with amount := x2 } : MatchTxn).description =
        ({ t with amount := x1 } : MatchTxn).description from rfl]
    have key := amountScore_anti_low x1 x2 a ha h12 h2
    linarith
  · intro t a dd v r x1 x2 ha h12 h1
    rw [calculateMatchScore_decomp, calculateMatchScore_decomp]
    rw [show ({ t with amount := x2 } : MatchTxn).amount = x2 from rfl,
      show ({ t with amount := x1 } : MatchTxn).amount = x1 from rfl,
      show dateContribution { t with amount := x2 } dd = dateContribution { t with amount := x1 } dd from rfl,
      show effectiveVendorScore { t with amount := x2 } (optVal v) =
        effectiveVendorScore { t with amount := x1 } (optVal v) from rfl,
      show ({ t with amount := x2 } : MatchTxn).description =
        ({ t with amount := x1 } : MatchTxn).description from rfl]
    have key := amountScore_anti_high x1 x2 a ha h12 h1
    linarith
  · intro t a d v r b1 b2 h12 h2
    rw [calculateMatchScore_decomp, calculateMatchScore_decomp]
    rw [show dateContribution { t with bookingDate := some b2 } (some d) =
        calculateDateScore b2 d * (1/5) from rfl,
      show dateContribution { t with bookingDate := some b1 } (some d) =
        calculateDateScore b1 d * (1/5) from rfl,
      show ({ t with bookingDate := some b2 } : MatchTxn).amount =
        ({ t with bookingDate := some b1 } : MatchTxn).amount from rfl,
      show effectiveVendorScore { t with bookingDate := some b2 } (optVal v) =
        effectiveVendorScore { t with bookingDate := some b1 } (optVal v) from rfl,
      show ({ t with bookingDate := some b2 } : MatchTxn).description =
        ({ t with bookingDate := some b1 } : MatchTxn).description from rfl]
    have key := dateScore_anti_low b1 b2 d h12 h2
    linarith
  · intro t a d v r b1 b2 h12 h1
    rw [calculateMatchScore_decomp, calculateMatchScore_decomp]
    rw [show dateContribution { t with bookingDate := some b2 } (some d) =
        calculateDateScore b2 d * (1/5) from rfl,
      show dateContribution { t with bookingDate := some b1 } (some d) =
        calculateDateScore b1 d * (1/5) from rfl,
      show ({ t with bookingDate := some b2 } : MatchTxn).amount =
        ({ t with bookingDate := some b1 } : MatchTxn).amount from rfl,
      show effectiveVendorScore { t with bookingDate := some b2 } (optVal v) =
        effectiveVendorScore { t with bookingDate := some b1 } (optVal v) from rfl,
      show ({ t with bookingDate := some b2 } : MatchTxn).description =
        ({ t with bookingDate := some b1 } : MatchTxn).description from rfl]
    have key := dateScore_anti_high b1 b2 d h12 h1
    linarith

/-- C1 witness: the amount-region statement at 5% versus 9% difference, and
the date-region statement at 3 versus 10 days. -/
theorem c1_regional_monotonicity_witness :
    (100 : ℚ) ≠ 0 ∧ pctDiff 105 100 ≤ pctDiff 109 100 ∧ pctDiff 109 100 < 1/10 ∧
    calculateMatchScore { plainTxn with amount := 109 } 100 none none none ≤
      calculateMatchScore { plainTxn with amount := 105 } 100 none none none ∧
    dayDiff 3 0 ≤ dayDiff 10 0 ∧ dayDiff 10 0 ≤ 30 ∧
    calculateMatchScore { plainTxn with bookingDate := some 10 } 100 (some 0) none none ≤
      calculateMatchScore { plainTxn with bookingDate := some 3 } 100 (some 0) none none := by
  refine ⟨by norm_num, by norm_num [pctDiff, abs_of_pos], by norm_num [pctDiff, abs_of_pos],
    c1_regional_monotonicity.1 plainTxn 100 none none none 105 109 (by norm_num)
      (by norm_num [pctDiff, abs_of_pos]) (by norm_num [pctDiff, abs_of_pos]),
    by decide, by decide,
    c1_regional_monotonicity.2.2.1 plainTxn 100 0 none none 3 10 (by decide) (by decide)⟩

end JA
